import Mathlib

/-!
Shallow embedding of the OptySys front-end core: the login form controller
(`onChange`, `onSubmit`, `setShowPassword` in the login page component), the
token/skills utilities (`normalizeAccessToken`, `capitalize`, `getSkillsList`),
and the session store described by the `IUserStore` interface.

Pure functions of the TypeScript source become Lean functions; component state
(`formData`, `error`) becomes explicit state passing; the asynchronous HTTP
collaborator becomes an explicit parameter carrying its outcome. Strings are
Lean `String` (lists of characters); JavaScript `undefined` fields are
`Option`.
-/

namespace OptySys

/-! ## Utilities (src/unnamed/part_001) -/

/-- Embeds `normalizeAccessToken(token) = token.replace(/"/g, "")`:
the regex has the global flag, so every double-quote character in the token is
removed, wherever it occurs. -/
def normalizeAccessToken (token : String) : String :=
  String.mk (token.data.filter (fun c => c ≠ '"'))

/-- Embeds `capitalize(str) = str.charAt(0).toUpperCase() + str.slice(1)`.
On the empty string, `charAt(0)` and `slice(1)` are both `""`, so the result
is `""`; otherwise the first character is uppercased and the rest kept. -/
def capitalize (str : String) : String :=
  match str.data with
  | [] => ""
  | c :: rest => String.mk (Char.toUpper c :: rest)

/-- Option record produced for the skills dropdown (`IOption` of
`@/types/common`). -/
structure IOption where
  value : String
  label : String
deriving DecidableEq, Repr

/-- Embeds `getSkillsList`: the CSV lookup collaborator's result (`data`,
the list of raw skill strings) is passed as a parameter; each raw skill is
mapped to `{value: skill, label: capitalize(skill)}` in order. -/
def getSkillsList (data : List String) : List IOption :=
  data.map (fun skill => { value := skill, label := capitalize skill })

/-! ## Modelled validation module

`getLoginFormErrors` lives in `src/utils/errors`, which is not part of the
provided sources; only its call sites are. It is modelled from the spec. -/

def emailRequiredMsg : String := "Email is required."

def invalidEmailMsg : String := "Enter a valid email address."

def passwordRequiredMsg : String := "Password is required."

def passwordLengthMsg : String := "Password must be at least 6 characters."

/-- Splits a character list at every occurrence of `sep` (helper for the
email-shape check). -/
def splitAtChar (sep : Char) : List Char → List (List Char)
  | [] => [[]]
  | c :: rest =>
    let r := splitAtChar sep rest
    if c = sep then [] :: r
    else
      match r with
      | [] => [[c]]
      | h :: t => (c :: h) :: t

/-- Modelled from the spec: the "standard email-shape check (local-part@domain
with at least one dot in domain)" used by the missing `getLoginFormErrors` of
`src/utils/errors` — the address splits at `@` into exactly a non-empty local
part and a non-empty domain, and the domain contains a dot. -/
def isValidEmail (email : String) : Bool :=
  match splitAtChar '@' email.data with
  | [lp, dom] => !lp.isEmpty && !dom.isEmpty && dom.contains '.'
  | _ => false

/-- Modelled from the spec: `getLoginFormErrors` of `src/utils/errors` is
missing from the sources; its rules, in the spec's fixed priority order, are
(1) email missing or empty, (2) email fails the shape check, (3) password
missing or empty, (4) password shorter than 6; `null` (here `none`) when all
pass. Fields absent from the raw `formData` object are `none`. -/
def getLoginFormErrors (email password : Option String) : Option String :=
  match email with
  | none => some emailRequiredMsg
  | some e =>
    if e.isEmpty then some emailRequiredMsg
    else if !isValidEmail e then some invalidEmailMsg
    else
      match password with
      | none => some passwordRequiredMsg
      | some p =>
        if p.isEmpty then some passwordRequiredMsg
        else if p.length < 6 then some passwordLengthMsg
        else none

/-! ## Login form controller state (src/unnamed/part_000) -/

/-- The login page's `formData` (`LoginFormData`), created as an empty object:
`email` and `password` are absent until first typed, and `showPassword` is
falsy until first toggled. -/
structure FormData where
  email : Option String
  password : Option String
  showPassword : Bool
deriving DecidableEq, Repr

/-- The login page component state: the `formData` object plus the `error`
value displayed through `ErrorField`. -/
structure PageState where
  formData : FormData
  error : Option String
deriving DecidableEq, Repr

/-- Embeds `setFormData({ ...formData, [name]: value })` of `onChange`,
restricted to the typed fields: the event name is `"email"` or `"password"`
(the two inputs wired to `onChange`); any other key would leave the `email`
and `password` properties of the spread unchanged. -/
def updateFormData (fd : FormData) (name value : String) : FormData :=
  if name = "email" then { fd with email := some value }
  else if name = "password" then { fd with password := some value }
  else fd

/-- The `email` argument `onChange` passes to `getLoginFormErrors`, per its
`switch (name)`: the fresh `value` when the changed field is `email`, the
stored `formData.email` otherwise. -/
def onChangeEmailArg (fd : FormData) (name value : String) : Option String :=
  if name = "email" then some value else fd.email

/-- The `password` argument `onChange` passes to `getLoginFormErrors`, per its
`switch (name)`: the fresh `value` when the changed field is `password`, the
stored `formData.password` otherwise. -/
def onChangePasswordArg (fd : FormData) (name value : String) : Option String :=
  if name = "password" then some value else fd.password

/-- Embeds the login page's `onChange`: it spreads the new value into
`formData` and recomputes the inline error from the post-change `email` and
`password` values selected by its `switch`. -/
def onChange (st : PageState) (name value : String) : PageState :=
  { formData := updateFormData st.formData name value
    error := getLoginFormErrors (onChangeEmailArg st.formData name value)
      (onChangePasswordArg st.formData name value) }

/-- Embeds the login page's `setShowPassword`, always invoked with the name
`"showPassword"`: `setFormData({ ...formData, showPassword: !formData.showPassword })`.
It does not touch `error` and does not call `getLoginFormErrors`. -/
def setShowPassword (st : PageState) : PageState :=
  { st with formData := { st.formData with showPassword := !st.formData.showPassword } }

/-! ## Session store

Only the `IUserStore` interface of the store is in the sources
(src/frontend/types/store.ts); the implementing store module is not, so its
operations are modelled from the spec. -/

/-- Modelled from the spec: the identity record held by the session store
("opaque id, email, activation flag, profile fields"); only the fields the
claims touch are carried. -/
structure IUser where
  id : String
  email : String
  isActivated : Bool
deriving DecidableEq, Repr

/-- Modelled from the spec: the session store behind `IUserStore` — `user`
and `accessToken` are each either absent (logged out) or present. -/
structure UserStore where
  user : Option IUser
  accessToken : Option String
deriving DecidableEq, Repr

/-- Modelled from the spec: `setUser(user)` replaces the stored identity
wholesale. -/
def setUser (s : UserStore) (u : IUser) : UserStore :=
  { s with user := some u }

/-- Modelled from the spec: `setAccessToken(token)` normalizes with
`normalizeAccessToken` (which is in the sources) and stores the result. -/
def setAccessToken (s : UserStore) (token : String) : UserStore :=
  { s with accessToken := some (normalizeAccessToken token) }

/-- Modelled from the spec: `getActivationStatus()` returns
`user.isActivated` when a user is set, `false` otherwise, and never fails. -/
def getActivationStatus (s : UserStore) : Bool :=
  match s.user with
  | some u => u.isActivated
  | none => false

/-- Modelled from the spec: `logoutUser()` clears both `user` and
`accessToken`. -/
def logoutUser (_s : UserStore) : UserStore :=
  { user := none, accessToken := none }

/-! ## Submission flow (src/unnamed/part_000, `onSubmit`) -/

inductive ToastKind where
  | success
  | error
deriving DecidableEq, Repr

/-- A notification raised through the toast collaborator. -/
structure Toast where
  kind : ToastKind
  message : String
deriving DecidableEq, Repr

/-- Outcome of the awaited `login(formData)` HTTP collaborator call: resolve,
or reject with the collaborator's own error text. -/
inductive LoginResult where
  | ok
  | rejected (errText : String)
deriving DecidableEq, Repr

/-- Everything observable about one run of `onSubmit`: the toasts raised, in
order; whether `login` was invoked; the path passed to `router.push`, if any
(no navigation means the form stays mounted, i.e. the controller remains in
the Editing state); and the session store after the run. -/
structure SubmitOutcome where
  toasts : List Toast
  loginCalled : Bool
  navigation : Option String
  store : UserStore
deriving DecidableEq, Repr

/-- Embeds the login page's `onSubmit`: re-validate `formData`; on a non-null
error, `toast.error(errorMessage)` and return (no `login` call); otherwise
await `login(formData)` — on resolve, `toast.success` then
`router.push("/dashboard")`; on reject, `toast.error("Invalid credentials.")`.
The component never writes the session store, so `store` is threaded through
unchanged on every path. -/
def onSubmit (fd : FormData) (res : LoginResult) (store : UserStore) : SubmitOutcome :=
  match getLoginFormErrors fd.email fd.password with
  | some msg =>
    { toasts := [{ kind := ToastKind.error, message := msg }]
      loginCalled := false
      navigation := none
      store := store }
  | none =>
    match res with
    | LoginResult.ok =>
      { toasts := [{ kind := ToastKind.success, message := "Successfully logged in." }]
        loginCalled := true
        navigation := some "/dashboard"
        store := store }
    | LoginResult.rejected _ =>
      { toasts := [{ kind := ToastKind.error, message := "Invalid credentials." }]
        loginCalled := true
        navigation := none
        store := store }

/-- Follows the spec's words for the claimed normalization behaviour (C5),
for comparison with `normalizeAccessToken`: strip exactly the wrapping quote
characters — one leading and one trailing quote — leaving every other
character of the token unchanged. -/
def stripWrappingQuotes (token : String) : String :=
  let l := token.data
  let l1 := if l.head? = some '"' then l.tail else l
  let l2 := if l1.getLast? = some '"' then l1.dropLast else l1
  String.mk l2

/-! ## Helper lemmas -/

/-- The inline error written by `onChange` is exactly the submission-gate
validation of the post-change form state: the `switch` in `onChange` selects
precisely the field values that the spread wrote into `formData`. -/
theorem onChange_error_eq_gate (st : PageState) (name value : String) :
    (onChange st name value).error =
      getLoginFormErrors (onChange st name value).formData.email
        (onChange st name value).formData.password := by
  unfold onChange updateFormData onChangeEmailArg onChangePasswordArg
  by_cases h1 : name = "email" <;> by_cases h2 : name = "password" <;>
    simp [h1, h2]

/-- `capitalize` uppercases the first character and keeps the remainder. -/
theorem capitalize_data (s : String) :
    (capitalize s).data = (s.data.take 1).map Char.toUpper ++ s.data.drop 1 := by
  unfold capitalize
  cases h : s.data <;> simp [h]

end OptySys

namespace OptySys

/-! ## Claims -/

/-- C1: for every pair of raw field values, the login validation returns
either `none` (valid) or exactly one of the four descriptive error strings,
and the rules are checked in the fixed priority order — in particular, for a
non-empty email failing the shape check together with a password shorter
than 6, the email-shape message is returned, which is not the password-length
message. -/
theorem getLoginFormErrors_first_rule_wins (email password : Option String)
    (e p : String) (he : e.isEmpty = false) (hv : isValidEmail e = false)
    (_hp : p.length < 6) :
    (getLoginFormErrors email password = none ∨
      getLoginFormErrors email password = some emailRequiredMsg ∨
      getLoginFormErrors email password = some invalidEmailMsg ∨
      getLoginFormErrors email password = some passwordRequiredMsg ∨
      getLoginFormErrors email password = some passwordLengthMsg) ∧
    getLoginFormErrors (some e) (some p) = some invalidEmailMsg ∧
    invalidEmailMsg ≠ passwordLengthMsg := by
  refine ⟨?_, ?_, by decide⟩
  · unfold getLoginFormErrors
    rcases email with _ | e₀
    · simp
    by_cases h1 : e₀.isEmpty = true
    · simp [h1]
    by_cases h2 : isValidEmail e₀ = true
    · rcases password with _ | p₀
      · simp [h1, h2]
      by_cases h3 : p₀.isEmpty = true
      · simp [h1, h2, h3]
      by_cases h4 : p₀.length < 6
      · simp [h1, h2, h3, h4]
      · simp [h1, h2, h3, h4]
    · simp [h1, h2]
  · unfold getLoginFormErrors
    simp [he, hv]

/-- C1 witness: the spec's scenario `email="bob@example"`, `password="abc"`
yields the email-shape message. -/
theorem getLoginFormErrors_first_rule_wins_witness :
    (getLoginFormErrors none none = none ∨
      getLoginFormErrors none none = some emailRequiredMsg ∨
      getLoginFormErrors none none = some invalidEmailMsg ∨
      getLoginFormErrors none none = some passwordRequiredMsg ∨
      getLoginFormErrors none none = some passwordLengthMsg) ∧
    getLoginFormErrors (some "bob@example") (some "abc") = some invalidEmailMsg ∧
    invalidEmailMsg ≠ passwordLengthMsg :=
  getLoginFormErrors_first_rule_wins none none "bob@example" "abc"
    (by decide) (by decide) (by decide)

/-- C2: the incremental (per-keystroke) validation and the submission-gate
validation apply the identical rule set to the same field values — if the
inline error computed by `onChange` is `none`, the validation `onSubmit`
would run on that same post-change form state also returns `none`. -/
theorem inline_null_implies_gate_null (st : PageState) (name value : String)
    (h : (onChange st name value).error = none) :
    getLoginFormErrors (onChange st name value).formData.email
      (onChange st name value).formData.password = none := by
  rw [← onChange_error_eq_gate]
  exact h

/-- C2 witness: typing a sixth password character into a state with a valid
email clears the inline error, and the gate agrees. -/
theorem inline_null_implies_gate_null_witness :
    getLoginFormErrors
      (onChange ⟨⟨some "bob@example.com", some "abc", false⟩, some passwordLengthMsg⟩
        "password" "abcdef").formData.email
      (onChange ⟨⟨some "bob@example.com", some "abc", false⟩, some passwordLengthMsg⟩
        "password" "abcdef").formData.password = none :=
  inline_null_implies_gate_null
    ⟨⟨some "bob@example.com", some "abc", false⟩, some passwordLengthMsg⟩
    "password" "abcdef" (by decide)

/-- C3: when the submission-gate validation fails, `onSubmit` raises exactly
one error notification carrying that error, never invokes the `login`
collaborator (no network call), requests no navigation (the controller stays
on the editing form), and leaves the session store unchanged. -/
theorem onSubmit_validation_failure (fd : FormData) (res : LoginResult)
    (store : UserStore) (msg : String)
    (h : getLoginFormErrors fd.email fd.password = some msg) :
    (onSubmit fd res store).toasts = [{ kind := ToastKind.error, message := msg }] ∧
    (onSubmit fd res store).loginCalled = false ∧
    (onSubmit fd res store).navigation = none ∧
    (onSubmit fd res store).store = store := by
  unfold onSubmit
  rw [h]
  exact ⟨rfl, rfl, rfl, rfl⟩

/-- C3 witness: submitting the still-empty form raises the email-required
error and makes no network call. -/
theorem onSubmit_validation_failure_witness :
    (onSubmit ⟨none, none, false⟩ LoginResult.ok ⟨none, none⟩).toasts =
      [{ kind := ToastKind.error, message := emailRequiredMsg }] ∧
    (onSubmit ⟨none, none, false⟩ LoginResult.ok ⟨none, none⟩).loginCalled = false ∧
    (onSubmit ⟨none, none, false⟩ LoginResult.ok ⟨none, none⟩).navigation = none ∧
    (onSubmit ⟨none, none, false⟩ LoginResult.ok ⟨none, none⟩).store = ⟨none, none⟩ :=
  onSubmit_validation_failure ⟨none, none, false⟩ LoginResult.ok ⟨none, none⟩
    emailRequiredMsg (by decide)

/-- C4: when a valid login submission is rejected by the collaborator,
`onSubmit` emits exactly one generic "Invalid credentials." error
notification — whatever error text the collaborator rejected with is never
surfaced, since the toast list is the same fixed singleton for every
`errText` — requests no navigation (the controller returns to editing), and
leaves the session store unchanged. -/
theorem onSubmit_collaborator_reject (fd : FormData) (store : UserStore)
    (errText : String) (h : getLoginFormErrors fd.email fd.password = none) :
    (onSubmit fd (LoginResult.rejected errText) store).toasts =
      [{ kind := ToastKind.error, message := "Invalid credentials." }] ∧
    (onSubmit fd (LoginResult.rejected errText) store).navigation = none ∧
    (onSubmit fd (LoginResult.rejected errText) store).store = store := by
  unfold onSubmit
  rw [h]
  exact ⟨rfl, rfl, rfl⟩

/-- C4 witness: a valid payload rejected with backend-specific error text
still produces only the generic notification and an unchanged store. -/
theorem onSubmit_collaborator_reject_witness :
    (onSubmit ⟨some "bob@example.com", some "abcdef", false⟩
        (LoginResult.rejected "401 Unauthorized") ⟨none, some "tok"⟩).toasts =
      [{ kind := ToastKind.error, message := "Invalid credentials." }] ∧
    (onSubmit ⟨some "bob@example.com", some "abcdef", false⟩
        (LoginResult.rejected "401 Unauthorized") ⟨none, some "tok"⟩).navigation = none ∧
    (onSubmit ⟨some "bob@example.com", some "abcdef", false⟩
        (LoginResult.rejected "401 Unauthorized") ⟨none, some "tok"⟩).store =
      ⟨none, some "tok"⟩ :=
  onSubmit_collaborator_reject ⟨some "bob@example.com", some "abcdef", false⟩
    ⟨none, some "tok"⟩ "401 Unauthorized" (by decide)

/-- C5 counterexample: on the token `a"b`, whose quote is interior rather
than wrapping, stripping exactly the wrapping quotes leaves the token
unchanged, but `normalizeAccessToken` removes the interior quote as well —
the claimed "leaves all other characters of the token unchanged" fails. -/
theorem normalizeAccessToken_strips_interior_quotes :
    stripWrappingQuotes (String.mk ['a', '"', 'b']) = String.mk ['a', '"', 'b'] ∧
    normalizeAccessToken (String.mk ['a', '"', 'b']) = "ab" ∧
    normalizeAccessToken (String.mk ['a', '"', 'b']) ≠
      stripWrappingQuotes (String.mk ['a', '"', 'b']) := by
  refine ⟨by decide, by decide, by decide⟩

/-- C5 (amended): the normalization strips every quote character of the
token, wherever it occurs (not only the wrapping ones), keeping all non-quote
characters unchanged in order, and the stored credential equals this
normalized string. -/
theorem normalizeAccessToken_spec (st : UserStore) (token : String) :
    (normalizeAccessToken token).data = token.data.filter (fun c => c ≠ '"') ∧
    (setAccessToken st token).accessToken = some (normalizeAccessToken token) := by
  exact ⟨rfl, rfl⟩

/-- C6: access-credential normalization is idempotent — normalizing an
already-normalized token changes nothing, since a quote-free character list
is left intact by a second quote filter. -/
theorem normalizeAccessToken_idempotent (token : String) :
    normalizeAccessToken (normalizeAccessToken token) = normalizeAccessToken token := by
  unfold normalizeAccessToken
  congr 1
  rw [List.filter_filter]
  apply List.filter_congr
  intro c _
  exact Bool.and_self _

/-- C7: `getSkillsList` returns one option per raw skill, in the same order;
each option's `value` is the raw skill unchanged and each option's `label` is
the raw skill with its first character uppercased and the remainder
unchanged. -/
theorem getSkillsList_spec (data : List String) :
    (getSkillsList data).map IOption.value = data ∧
    (getSkillsList data).map (fun o => o.label.data) =
      data.map (fun s => (s.data.take 1).map Char.toUpper ++ s.data.drop 1) := by
  constructor
  · induction data with
    | nil => rfl
    | cons s rest ih =>
      simp [getSkillsList] at ih ⊢
      exact ih
  · simp only [getSkillsList, List.map_map]
    apply List.map_congr_left
    intro s _
    exact capitalize_data s

/-- C8: after `logoutUser` the activation status is `false` regardless of the
prior store state, and `getActivationStatus` is a total pure read returning
`false` on every store with no user set (so it cannot fail before any
login). -/
theorem getActivationStatus_after_logout (s : UserStore) (tok : Option String) :
    getActivationStatus (logoutUser s) = false ∧
    getActivationStatus { user := none, accessToken := tok } = false := by
  exact ⟨rfl, rfl⟩

/-- C9: toggling the password-visibility flag flips only `showPassword`: the
email and password field values and the displayed validation error are
unchanged, and no validation result is recomputed (`error` is exactly the old
one). -/
theorem setShowPassword_frame (st : PageState) :
    (setShowPassword st).formData.email = st.formData.email ∧
    (setShowPassword st).formData.password = st.formData.password ∧
    (setShowPassword st).error = st.error ∧
    (setShowPassword st).formData.showPassword = !st.formData.showPassword := by
  exact ⟨rfl, rfl, rfl, rfl⟩

/-- C10: `capitalize` is total on all strings, returning `""` on the empty
string, so `getSkillsList` produces an option for every entry of every CSV
result list, empty skill strings included. -/
theorem capitalize_total_on_empty :
    capitalize "" = "" ∧
    (∀ data : List String, (getSkillsList data).length = data.length) ∧
    getSkillsList ["", "go"] = [⟨"", ""⟩, ⟨"go", "Go"⟩] := by
  refine ⟨rfl, ?_, by decide⟩
  intro data
  simp [getSkillsList]

end OptySys
